import Mathlib

/-!
Verification development for the DialScript line-oriented validator.

The program is a small compiler for a dialog-script format.  Its core is:
  - a per-line classifier `parse_line` (src parser, C revision) mapping a raw
    line to a typed `ParsedLine`;
  - a stateful validator `compile` (C revision with dialog-block state,
    one-line lookahead for blank lines, and end-of-file checks) that folds the
    classified lines into a list of diagnostics;
  - an approximate-matching heuristic (`is_typo`, `find_similar_header`,
    `find_similar_character`) used for "did you mean" hints and by an
    auto-fix pass (`fix_line`).

Lines are modelled as `List Char` (C strings without the terminating NUL; a
NUL never occurs inside a line read by `fgets`).  C `size_t` arithmetic is
modelled exactly where it matters (the length filter of the typo heuristic
wraps for candidate lengths below 2).  The C `char` return of `compile` is
modelled as the value modulo 256 (the bit pattern / process exit byte).
-/

namespace DialScript

/-- C `isspace` on the default locale (ASCII). -/
def isspaceC (c : Char) : Bool :=
  c = ' ' || c = '\t' || c = '\n' || c = '\x0b' || c = '\x0c' || c = '\r'

/-- C `tolower` on ASCII. -/
def tolowerC (c : Char) : Char :=
  if 'A' ≤ c ∧ c ≤ 'Z' then Char.ofNat (c.toNat + 32) else c

/-- C `isdigit`. -/
def isdigitC (c : Char) : Bool := '0' ≤ c && c ≤ '9'

/-- `skip_spaces` from the C parser: drop leading whitespace. -/
def skipSpaces (l : List Char) : List Char := l.dropWhile isspaceC

/-- `trim_end` from the C parser: drop trailing whitespace. -/
def trimEnd (l : List Char) : List Char := (l.reverse.dropWhile isspaceC).reverse

/-- `trim` from the C fixer: drop leading and trailing whitespace. -/
def trimTok (l : List Char) : List Char := trimEnd (skipSpaces l)

/-- Line types, mirroring the `LineType` enum of parser.h. -/
inductive LineType where
  | LINE_EMPTY
  | LINE_COMMENT
  | LINE_SCENE
  | LINE_DIALOG_HEADER
  | LINE_LEVEL
  | LINE_LOCATION
  | LINE_CHARACTERS
  | LINE_DIALOG
  | LINE_UNKNOWN
  | LINE_ERROR_EMPTY_NAME
  | LINE_ERROR_EMPTY_TEXT
  | LINE_ERROR_NO_SPACE_AFTER_COLON
  | LINE_ERROR_INVALID_DIALOG_FORMAT
  | LINE_ERROR_MISSING_COLON
  | LINE_ERROR_UNKNOWN_CHARACTER
  | LINE_ERROR_UNCLOSED_BRACKET
  | LINE_ERROR_META_NOT_AT_END
  | LINE_ERROR_TYPO_SCENE
  | LINE_ERROR_TYPO_DIALOG
  | LINE_ERROR_TYPO_LEVEL
  | LINE_ERROR_TYPO_LOCATION
  | LINE_ERROR_TYPO_CHARACTERS
  | LINE_ERROR_EXTRA_SPACE_IN_HEADER
  | LINE_ERROR_EXTRA_SPACE_IN_METADATA
  | LINE_ERROR_LEADING_SPACE
  deriving DecidableEq, Repr

/-- The closed set of line kinds (all 25 enum members of parser.h). -/
def allLineTypes : List LineType :=
  [.LINE_EMPTY, .LINE_COMMENT, .LINE_SCENE, .LINE_DIALOG_HEADER, .LINE_LEVEL,
   .LINE_LOCATION, .LINE_CHARACTERS, .LINE_DIALOG, .LINE_UNKNOWN,
   .LINE_ERROR_EMPTY_NAME, .LINE_ERROR_EMPTY_TEXT,
   .LINE_ERROR_NO_SPACE_AFTER_COLON, .LINE_ERROR_INVALID_DIALOG_FORMAT,
   .LINE_ERROR_MISSING_COLON, .LINE_ERROR_UNKNOWN_CHARACTER,
   .LINE_ERROR_UNCLOSED_BRACKET, .LINE_ERROR_META_NOT_AT_END,
   .LINE_ERROR_TYPO_SCENE, .LINE_ERROR_TYPO_DIALOG, .LINE_ERROR_TYPO_LEVEL,
   .LINE_ERROR_TYPO_LOCATION, .LINE_ERROR_TYPO_CHARACTERS,
   .LINE_ERROR_EXTRA_SPACE_IN_HEADER, .LINE_ERROR_EXTRA_SPACE_IN_METADATA,
   .LINE_ERROR_LEADING_SPACE]

/-- `ParsedLine` of parser.h.  `meta` is the substring from the first `\x7b`
of the dialog text to the end of the line; `metaPos` its index in the line
(the C code keeps a pointer into the line buffer). -/
structure ParsedLine where
  type : LineType
  number : Int := 0
  value : List Char := []
  name : List Char := []
  text : List Char := []
  meta : Option (List Char) := none
  metaPos : Nat := 0
  deriving DecidableEq, Repr

/-- Value of a digit run for C `%d` conversion. -/
def digitsVal (l : List Char) : Option Int :=
  let ds := l.takeWhile isdigitC
  if ds = [] then none
  else some (ds.foldl (fun acc c => 10 * acc + (c.toNat - '0'.toNat : Int)) 0)

/-- `sscanf` `%d` at the head of the input: skips C whitespace, then an
optional sign and at least one digit. -/
def parseIntPrefix (l : List Char) : Option Int :=
  match skipSpaces l with
  | '-' :: r => (digitsVal r).map (fun v => -v)
  | '+' :: r => digitsVal r
  | r => digitsVal r

/-- `sscanf(line, "[Scene.%d]", &num) == 1` (and the Dialog analogue):
the literal prefix must match and `%d` must convert; the trailing `]` does
not affect the return value because the assignment already happened. -/
def scanHeaderNum (pre : List Char) (l : List Char) : Option Int :=
  if l.take pre.length = pre then parseIntPrefix (l.drop pre.length) else none

/-- The length filter of `is_typo` / `find_similar_*`:
`len_in < len_exp - 2 || len_in > len_exp + 2` over C `size_t`
(the subtraction wraps modulo 2^64 when `len_exp < 2`). -/
def U64 : Nat := 18446744073709551616

def lenTooDiff (lenIn lenExp : Nat) : Bool :=
  decide ((lenIn % U64) < ((lenExp + U64 - 2) % U64)) ||
  decide ((lenIn % U64) > ((lenExp + 2) % U64))

/-- `len_in == len_exp && strcasecmp_partial(input, expected, len_in) == 0`. -/
def exactCI (a b : List Char) : Bool :=
  a.length == b.length && (a.map tolowerC == b.map tolowerC)

/-- Count of positionally matching characters (case-insensitive) over the
shorter prefix (the C loop runs to `min_len`). -/
def matchCount (a b : List Char) : Nat :=
  (a.zip b).countP (fun p => tolowerC p.1 == tolowerC p.2)

/-- `is_typo` from the C parser: flat 60% threshold, denominator
`len_exp` (the expected keyword's length). -/
def is_typo (input expected : List Char) : Bool :=
  if lenTooDiff input.length expected.length then false
  else if exactCI input expected then false
  else decide (matchCount input expected * 100 / expected.length > 60)

/-- `find_similar_header` (fixer, percentage revision): first of
`Scene`, `Dialog` accepted by the flat-60% rule; this is exactly the chain of
`is_typo` calls the classifier uses on a bracketed header word. -/
def find_similar_header (word : List Char) : Option (List Char) :=
  if is_typo word ("Scene".toList) then some ("Scene".toList)
  else if is_typo word ("Dialog".toList) then some ("Dialog".toList)
  else none

/-- The chain of `is_typo` calls on a would-be metadata keyword
(parse_line, keyword-typo block). -/
def keywordTypoCheck (kw : List Char) : Option (List Char) :=
  if is_typo kw ("Level".toList) then some ("Level".toList)
  else if is_typo kw ("Location".toList) then some ("Location".toList)
  else if is_typo kw ("Characters".toList) then some ("Characters".toList)
  else none

/-- Map the suggested header word to the error kind returned. -/
def headerTypeOf (c : List Char) : LineType :=
  if c = "Scene".toList then .LINE_ERROR_TYPO_SCENE else .LINE_ERROR_TYPO_DIALOG

/-- Map the suggested keyword to the error kind returned. -/
def kwTypeOf (c : List Char) : LineType :=
  if c = "Level".toList then .LINE_ERROR_TYPO_LEVEL
  else if c = "Location".toList then .LINE_ERROR_TYPO_LOCATION
  else .LINE_ERROR_TYPO_CHARACTERS

/-- The effective colon of a dialog candidate: `strchr(line, ':')`, nulled
when it lies beyond the first `\x7b` (`colon > meta_start`). -/
def effColon (l : List Char) : Option Nat :=
  match l.findIdx? (· = ':'), l.findIdx? (· = '{') with
  | some ci, some mi => if ci > mi then none else some ci
  | some ci, none => some ci
  | none, _ => none

/-- Dialog-line tail of `parse_line`, after the space-after-colon check:
name extraction, text extraction, metadata split, emptiness checks. -/
def dialogTailAfter (l : List Char) (ci : Nat) : ParsedLine :=
  let name := trimEnd (skipSpaces (l.take ci))
  let textRaw := skipSpaces (l.drop (ci + 1))
  let metaIdx := textRaw.findIdx? (· = '{')
  match metaIdx with
  | some mi =>
    let metaStr := textRaw.drop mi
    let metaPos := (l.findIdx? (· = '{')).getD 0
    match metaStr.findIdx? (· = '}') with
    | some wi =>
      if (metaStr.drop (wi + 1)).dropWhile isspaceC ≠ [] then
        { type := .LINE_ERROR_META_NOT_AT_END }
      else
        let text := trimEnd (textRaw.take mi)
        if name = [] then { type := .LINE_ERROR_EMPTY_NAME }
        else if text = [] then { type := .LINE_ERROR_EMPTY_TEXT }
        else { type := .LINE_DIALOG, name := name, text := text,
               meta := some metaStr, metaPos := metaPos }
    | none =>
      let text := trimEnd (textRaw.take mi)
      if name = [] then { type := .LINE_ERROR_EMPTY_NAME }
      else if text = [] then { type := .LINE_ERROR_EMPTY_TEXT }
      else { type := .LINE_DIALOG, name := name, text := text,
             meta := some metaStr, metaPos := metaPos }
  | none =>
    if name = [] then { type := .LINE_ERROR_EMPTY_NAME }
    else if textRaw = [] then { type := .LINE_ERROR_EMPTY_TEXT }
    else { type := .LINE_DIALOG, name := name, text := textRaw, meta := none }

/-- Dialog branch of `parse_line`: space-after-colon check first
(`*(colon+1)` must be a space or the terminating NUL), then the tail. -/
def parseDialogLine (l : List Char) (ci : Nat) : ParsedLine :=
  match l.get? (ci + 1) with
  | some c => if c ≠ ' ' then { type := .LINE_ERROR_NO_SPACE_AFTER_COLON }
              else dialogTailAfter l ci
  | none => dialogTailAfter l ci

/-- `parse_line` from the C parser (parser.c): the per-line classifier. -/
def parse_line (l : List Char) : ParsedLine :=
  if l = [] then { type := .LINE_EMPTY }
  else if l.take 2 = "//".toList then { type := .LINE_COMMENT, value := l.drop 2 }
  else match scanHeaderNum ("[Scene.".toList) l with
  | some n => { type := .LINE_SCENE, number := n }
  | none =>
  match scanHeaderNum ("[Dialog.".toList) l with
  | some n => { type := .LINE_DIALOG_HEADER, number := n }
  | none =>
  if l.take 6 = "Level:".toList then
    { type := .LINE_LEVEL, value := skipSpaces (l.drop 6) }
  else if l.take 9 = "Location:".toList then
    { type := .LINE_LOCATION, value := skipSpaces (l.drop 9) }
  else if l.take 11 = "Characters:".toList then
    { type := .LINE_CHARACTERS, value := skipSpaces (l.drop 11) }
  else match effColon l with
  | some ci => parseDialogLine l ci
  | none =>
    let headerSuggest : Option (List Char) :=
      if l.head? = some '[' then
        find_similar_header (((l.drop 1).takeWhile (· ≠ '.')).take 63)
      else none
    match headerSuggest with
    | some c => { type := headerTypeOf c }
    | none =>
      match l.findIdx? (· = ':') with
      | some cp =>
        if cp < 64 then
          match keywordTypoCheck (trimEnd (l.take cp)) with
          | some c => { type := kwTypeOf c }
          | none => { type := .LINE_UNKNOWN }
        else { type := .LINE_UNKNOWN }
      | none => { type := .LINE_UNKNOWN }

/-! ## Character-list tokenisation and the character-name heuristic -/

/-- `strtok(buf, ",")`: maximal non-empty runs between commas. -/
def splitToks (l : List Char) : List (List Char) :=
  (l.splitOn ',').filter (fun t => t ≠ [])

/-- `char_known` of the validator: a name is known when it equals one of the
comma-separated, whitespace-trimmed entries of the Characters value. -/
def char_known (name : List Char) (characters : List Char) : Bool :=
  ((splitToks characters).map trimTok).contains name

/-- Per-candidate acceptance of `find_similar_character` (fixer, percentage
revision): the same length and exact-match filters as `is_typo`, but with the
threshold lowered to 20 for candidates of length at most 4. -/
def fscAccept (name tok : List Char) : Bool :=
  if lenTooDiff name.length tok.length then false
  else if exactCI name tok then false
  else decide (matchCount name tok * 100 / tok.length >
               (if tok.length ≤ 4 then 20 else 60))

/-- Loop body of `find_similar_character`: trim each token, return the first
accepted one. -/
def fscGo (name : List Char) : List (List Char) → Option (List Char)
  | [] => none
  | t :: ts =>
    let tok := trimTok t
    if fscAccept name tok then some tok else fscGo name ts

/-- `find_similar_character` (fixer, percentage revision). -/
def find_similar_character (name characters : List Char) : Option (List Char) :=
  fscGo name (splitToks characters)

/-- The uniform rule the character-name matcher implements, over an explicit
candidate list: first candidate passing `fscAccept`. -/
def suggestUniform (input : List Char) : List (List Char) → Option (List Char)
  | [] => none
  | c :: cs => if fscAccept input c then some c else suggestUniform input cs

/-- Modelled from the claim's words (C3): reject an exact case-insensitive
match and any candidate whose length differs from the input's by more than 2;
accept the first remaining candidate whose percentage of positionally
matching characters (over the shorter string) clears 20 for candidates of
length at most 4 and 60 otherwise. -/
def claimAccept (input c : List Char) : Bool :=
  !(exactCI input c) &&
  decide ((input.length : Int) - c.length ≤ 2 ∧ (c.length : Int) - input.length ≤ 2) &&
  decide (matchCount input c * 100 / (min input.length c.length) >
          (if c.length ≤ 4 then 20 else 60))

/-- Modelled from the claim's words (C3): first candidate `claimAccept`s. -/
def suggestClaim (input : List Char) : List (List Char) → Option (List Char)
  | [] => none
  | c :: cs => if claimAccept input c then some c else suggestClaim input cs

/-! ## Diagnostics and the block validator (compiler.c, stateful revision) -/

/-- One diagnostic: line number, message, hint, caret position
(as passed to the error reporters; the raw line content is presentation). -/
structure Diag where
  line : Nat
  msg : String
  hint : String
  pos : Nat
  deriving DecidableEq, Repr

/-- Validator state of `compile`: scene number (0 = none), dialog flag,
stored Characters value, the four file-level flags, and the diagnostics
with their count (the C `error` counter). -/
structure CState where
  scene : Int
  dialog : Bool
  characters : List Char
  hasScene : Bool
  hasLevel : Bool
  hasLocation : Bool
  hasChars : Bool
  diags : List Diag
  errorCount : Nat
  deriving DecidableEq, Repr

def initState : CState :=
  { scene := 0, dialog := false, characters := [], hasScene := false,
    hasLevel := false, hasLocation := false, hasChars := false,
    diags := [], errorCount := 0 }

/-- The `fail`/`fail_at` macros: report one diagnostic and bump `error`. -/
def emit (st : CState) (line : Nat) (msg hint : String) (pos : Nat) : CState :=
  { st with diags := st.diags ++ [⟨line, msg, hint, pos⟩],
            errorCount := st.errorCount + 1 }

/-- Lookahead test of the blank-line rule: in a dialog block and the next
line (if any) classifies to neither a dialog header nor a comment. -/
def blankLineBad (st : CState) (next : Option (List Char)) : Bool :=
  st.dialog &&
  (match next with
   | some nl => decide ((parse_line nl).type ≠ .LINE_DIALOG_HEADER) &&
                decide ((parse_line nl).type ≠ .LINE_COMMENT)
   | none => false)

/-- One iteration of the `compile` loop (stateful revision with lookahead):
`n` is the 1-based line number, `next` the following raw line if any. -/
def processLine (st : CState) (n : Nat) (l : List Char)
    (next : Option (List Char)) : CState :=
  let p := parse_line l
  match p.type with
  | .LINE_EMPTY =>
    if blankLineBad st next then
      emit st n "Empty line inside dialog block"
        "Remove empty lines between dialog lines" 0
    else st
  | .LINE_COMMENT => st
  | .LINE_SCENE =>
    if st.hasScene then
      emit st n "Only one [Scene.X] allowed" "Remove extra scene declarations" 0
    else if p.number ≤ 0 then
      emit st n "Scene number must be > 0" "Use [Scene.1], [Scene.2], etc." 7
    else
      { st with scene := p.number, dialog := false, characters := [],
                hasScene := true }
  | .LINE_DIALOG_HEADER =>
    if st.scene = 0 then
      emit st n "Dialog without [Scene.X]" "Add [Scene.1] before this dialog" 0
    else if p.number ≤ 0 then
      emit st n "Dialog number must be > 0" "Use [Dialog.1], [Dialog.2], etc." 8
    else { st with dialog := true }
  | .LINE_LEVEL =>
    if st.scene = 0 then
      emit st n "Level outside scene" "Move Level: inside [Scene.X] block" 0
    else if st.dialog then
      emit st n "Level after dialog" "Move Level: before [Dialog.X]" 0
    else if st.hasLevel then
      emit st n "Duplicate Level" "Remove extra Level definition" 0
    else { st with hasLevel := true }
  | .LINE_LOCATION =>
    if st.scene = 0 then
      emit st n "Location outside scene" "Move Location: inside [Scene.X] block" 0
    else if st.dialog then
      emit st n "Location after dialog" "Move Location: before [Dialog.X]" 0
    else if st.hasLocation then
      emit st n "Duplicate Location" "Remove extra Location definition" 0
    else { st with hasLocation := true }
  | .LINE_CHARACTERS =>
    if st.scene = 0 then
      emit st n "Characters outside scene" "Move Characters: inside [Scene.X] block" 0
    else if st.dialog then
      emit st n "Characters after dialog" "Move Characters: before [Dialog.X]" 0
    else if st.hasChars then
      emit st n "Duplicate Characters" "Remove extra Characters definition" 0
    else { st with characters := p.value, hasChars := true }
  | .LINE_DIALOG =>
    if ¬ st.dialog then
      emit st n "Stray dialog line" "Add [Dialog.1] before this line" 0
    else
      let st1 :=
        if st.characters ≠ [] ∧ ¬ char_known p.name st.characters then
          emit st n "Unknown character" "Add this character to Characters" 0
        else st
      match p.meta with
      | some m =>
        if ¬ m.contains '}' then
          emit st1 n "Missing '\x7d' in metadata" "Close metadata with '\x7d'"
            p.metaPos
        else st1
      | none => st1
  | .LINE_ERROR_EMPTY_NAME =>
    emit st n "Empty name before ':'" "Add character name, e.g. Alan: Hello" 0
  | .LINE_ERROR_MISSING_COLON =>
    emit st n "Missing ':' in dialog" "Use format: Name: Text" 0
  | .LINE_ERROR_INVALID_DIALOG_FORMAT =>
    emit st n "Wrong dialog format" "Use format: Name: Text" 0
  | .LINE_ERROR_TYPO_SCENE =>
    emit st n "Did you mean [Scene.N]?" "Check spelling" 1
  | .LINE_ERROR_TYPO_DIALOG =>
    emit st n "Did you mean [Dialog.N]?" "Check spelling" 1
  | .LINE_ERROR_TYPO_LEVEL =>
    emit st n "Did you mean 'Level:'?" "Check spelling" 0
  | .LINE_ERROR_TYPO_LOCATION =>
    emit st n "Did you mean 'Location:'?" "Check spelling" 0
  | .LINE_ERROR_TYPO_CHARACTERS =>
    emit st n "Did you mean 'Characters:'?" "Check spelling" 0
  | .LINE_ERROR_UNCLOSED_BRACKET =>
    emit st n "Missing ']'" "Close header with ']'" l.length
  | .LINE_ERROR_EXTRA_SPACE_IN_HEADER =>
    emit st n "Extra space in header" "Use [Scene.1] or [Dialog.1] without spaces" 0
  | .LINE_ERROR_EXTRA_SPACE_IN_METADATA =>
    emit st n "Extra space before ':'"
      "Use 'Level:', 'Location:', 'Characters:' without spaces" 0
  | .LINE_ERROR_LEADING_SPACE =>
    emit st n "Leading space in dialog line"
      "Character name must start at the beginning of the line" 0
  | .LINE_UNKNOWN =>
    if st.dialog then
      emit st n "Invalid line in dialog" "Use format: Name: Text" 0
    else
      emit st n "Unknown syntax"
        "Check spelling or use: [Scene.N], [Dialog.N], Name: Text" 0
  | _ => st

/-- The `compile` loop: left-to-right with one-line lookahead. -/
def auxRun (st : CState) (n : Nat) : List (List Char) → CState
  | [] => st
  | l :: rest => auxRun (processLine st n l rest.head?) (n + 1) rest

/-- The four end-of-file diagnostics, attributed to the final line number. -/
def missingList (st : CState) (n : Nat) : List Diag :=
  (if st.hasScene then [] else
    [⟨n, "Missing [Scene.X]", "Add [Scene.1] at the beginning of file", 0⟩]) ++
  (if st.hasLevel then [] else
    [⟨n, "Missing Level", "Add 'Level: N' after [Scene.X]", 0⟩]) ++
  (if st.hasLocation then [] else
    [⟨n, "Missing Location", "Add 'Location: name' after [Scene.X]", 0⟩]) ++
  (if st.hasChars then [] else
    [⟨n, "Missing Characters", "Add 'Characters: Name1, Name2' after [Scene.X]", 0⟩])

/-- Number of missing end-of-file requirements. -/
def missingCount (st : CState) : Nat :=
  (if st.hasScene then 0 else 1) + (if st.hasLevel then 0 else 1) +
  (if st.hasLocation then 0 else 1) + (if st.hasChars then 0 else 1)

/-- The final `fail_final` phase of `compile` (sequential conditional emits). -/
def finalChecks (st : CState) (n : Nat) : CState :=
  let st1 := if ¬ st.hasScene then
    emit st n "Missing [Scene.X]" "Add [Scene.1] at the beginning of file" 0 else st
  let st2 := if ¬ st.hasLevel then
    emit st1 n "Missing Level" "Add 'Level: N' after [Scene.X]" 0 else st1
  let st3 := if ¬ st.hasLocation then
    emit st2 n "Missing Location" "Add 'Location: name' after [Scene.X]" 0 else st2
  if ¬ st.hasChars then
    emit st3 n "Missing Characters" "Add 'Characters: Name1, Name2' after [Scene.X]" 0
  else st3

/-- `compile` on an already-read list of lines: final validator state. -/
def compileSt (ls : List (List Char)) : CState :=
  finalChecks (auxRun initState 1 ls) ls.length

/-- The `char` returned by `compile`, as its value modulo 256 (the
narrowed byte / process exit status). -/
def compileRet (ls : List (List Char)) : Nat :=
  (compileSt ls).errorCount % 256

/-! ## The compiler.c revision of `compile` (no lookahead, no final checks,
but full handling of the per-line error kinds, with caret positions) -/

structure CStateV2 where
  inScene : Int
  inDialog : Bool
  characters : List Char
  diags : List Diag
  errorCount : Nat
  deriving DecidableEq, Repr

def initStateV2 : CStateV2 :=
  { inScene := 0, inDialog := false, characters := [], diags := [],
    errorCount := 0 }

def emitV2 (st : CStateV2) (line : Nat) (msg hint : String) (pos : Nat) :
    CStateV2 :=
  { st with diags := st.diags ++ [⟨line, msg, hint, pos⟩],
            errorCount := st.errorCount + 1 }

/-- Caret for the colon-relative errors: index of the first ':' plus one,
or 0 when no colon exists. -/
def colonCaret (l : List Char) : Nat :=
  match l.findIdx? (· = ':') with
  | some ci => ci + 1
  | none => 0

/-- Caret for the metadata errors: index of the first `\x7b`, or 0. -/
def metaCaret (l : List Char) : Nat := (l.findIdx? (· = '{')).getD 0

/-- One iteration of the compiler.c revision of `compile`. -/
def processLineV2 (st : CStateV2) (n : Nat) (l : List Char) : CStateV2 :=
  let p := parse_line l
  match p.type with
  | .LINE_EMPTY => st
  | .LINE_COMMENT => st
  | .LINE_SCENE =>
    if p.number ≤ 0 then
      emitV2 st n "Invalid scene number" "Scene numbers must be positive, e.g. [Scene.1]" 7
    else { st with inScene := p.number, inDialog := false, characters := [] }
  | .LINE_DIALOG_HEADER =>
    if st.inScene = 0 then
      emitV2 st n "Dialog outside scene" "Did you mean to add [Scene.1] before this?" 0
    else if p.number ≤ 0 then
      emitV2 st n "Invalid dialog number" "Dialog numbers must be positive, e.g. [Dialog.1]" 8
    else { st with inDialog := true }
  | .LINE_LEVEL =>
    if st.inScene = 0 then
      emitV2 st n "Level outside scene" "Level must be inside a [Scene.N] block" 0
    else st
  | .LINE_LOCATION =>
    if st.inScene = 0 then
      emitV2 st n "Location outside scene" "Location must be inside a [Scene.N] block" 0
    else st
  | .LINE_CHARACTERS =>
    if st.inScene = 0 then
      emitV2 st n "Characters outside scene" "Characters must be inside a [Scene.N] block" 0
    else { st with characters := p.value }
  | .LINE_DIALOG =>
    if ¬ st.inDialog then
      emitV2 st n "Dialog line outside dialog block" "Did you mean to add [Dialog.1] before this?" 0
    else
      let st1 :=
        if st.characters ≠ [] ∧ ¬ char_known p.name st.characters then
          emitV2 st n "Unknown character" "This character is not in the Characters list" 0
        else st
      match p.meta with
      | some m =>
        if ¬ m.contains '}' then
          emitV2 st1 n "Unclosed metadata" "Missing '\x7d' at end of metadata block" p.metaPos
        else st1
      | none => st1
  | .LINE_UNKNOWN =>
    if st.inDialog then
      emitV2 st n "Missing colon in dialog" "Dialog lines must be: Name: Text" 0
    else
      emitV2 st n "Unknown syntax" "Check spelling or use valid format: [Scene.N], [Dialog.N], Name: Text" 0
  | .LINE_ERROR_EMPTY_NAME =>
    emitV2 st n "Empty character name" "Add a character name before ':', e.g. Alan: Hello" 0
  | .LINE_ERROR_EMPTY_TEXT =>
    emitV2 st n "Empty dialog text" "Add dialog text after ':', e.g. Alan: Hello" (colonCaret l)
  | .LINE_ERROR_NO_SPACE_AFTER_COLON =>
    emitV2 st n "Missing space after colon" "Format: Name: Text (space required after ':')" (colonCaret l)
  | .LINE_ERROR_INVALID_DIALOG_FORMAT =>
    emitV2 st n "Invalid dialog format" "Dialog must be: Name: Text" 0
  | .LINE_ERROR_MISSING_COLON =>
    emitV2 st n "Missing colon" "Dialog lines must be: Name: Text" 0
  | .LINE_ERROR_UNKNOWN_CHARACTER =>
    emitV2 st n "Unknown character" "This character is not in the Characters list" 0
  | .LINE_ERROR_META_NOT_AT_END =>
    emitV2 st n "Metadata must be at end of line" "Move \x7b..\x7d to the end: Name: Text \x7bmeta\x7d" (metaCaret l)
  | .LINE_ERROR_TYPO_SCENE =>
    emitV2 st n "Invalid header format" "Did you mean [Scene.N]?" 1
  | .LINE_ERROR_TYPO_DIALOG =>
    emitV2 st n "Invalid header format" "Did you mean [Dialog.N]?" 1
  | .LINE_ERROR_TYPO_LEVEL =>
    emitV2 st n "Unknown keyword" "Did you mean 'Level:'?" 0
  | .LINE_ERROR_TYPO_LOCATION =>
    emitV2 st n "Unknown keyword" "Did you mean 'Location:'?" 0
  | .LINE_ERROR_TYPO_CHARACTERS =>
    emitV2 st n "Unknown keyword" "Did you mean 'Characters:'?" 0
  | .LINE_ERROR_UNCLOSED_BRACKET =>
    emitV2 st n "Unclosed bracket" "Missing ']' at end of header" l.length
  | _ => st

def auxRunV2 (st : CStateV2) (n : Nat) : List (List Char) → CStateV2
  | [] => st
  | l :: rest => auxRunV2 (processLineV2 st n l) (n + 1) rest

/-- The compiler.c revision of `compile` on an already-read line list. -/
def compileV2 (ls : List (List Char)) : CStateV2 :=
  auxRunV2 initStateV2 1 ls

/-! ## The auto-fix pass (fixer, percentage revision): `fix_line` -/

/-- `strncasecmp(l, pre, strlen(pre)) == 0`: case-insensitive prefix. -/
def ciStartsWith (l : List Char) (pre : List Char) : Bool :=
  (l.take pre.length).map tolowerC == pre.map tolowerC

/-- Render an `Int` the way `%d` prints it. -/
def intChars (n : Int) : List Char := (toString n).toList

/-- `fix_line` from the fixer (percentage revision): returns the rewritten
line when a fix fires (C return 1), `none` otherwise (C return 0). -/
def fix_line (original : List Char) (characters : List Char) :
    Option (List Char) :=
  if original = [] ∨ original.take 2 = "//".toList then none
  else if original.head? = some '[' then
    -- [%63[^.] plus [%*[^.]%*c%d]: header word then number after the dot
    let rest := original.drop 1
    let w := (rest.takeWhile (· ≠ '.')).take 63
    let numPart := (rest.dropWhile (· ≠ '.')).drop 1
    match (if w = [] then none else parseIntPrefix numPart) with
    | some n =>
      match find_similar_header w with
      | some cw => some ('[' :: cw ++ '.' :: intChars n ++ [']'])
      | none => none
    | none => none
  else if ¬ (original.take 6 = "Level:".toList) ∧
          (ciStartsWith original ("Levl:".toList) ∨
           ciStartsWith original ("Lvl:".toList) ∨
           ciStartsWith original ("level:".toList)) then
    match original.findIdx? (· = ':') with
    | some ci => some ("Level:".toList ++ original.drop (ci + 1))
    | none => none
  else if ¬ (original.take 9 = "Location:".toList) ∧
          (ciStartsWith original ("Locaton:".toList) ∨
           ciStartsWith original ("Locatin:".toList) ∨
           ciStartsWith original ("location:".toList)) then
    match original.findIdx? (· = ':') with
    | some ci => some ("Location:".toList ++ original.drop (ci + 1))
    | none => none
  else if ¬ (original.take 11 = "Characters:".toList) ∧
          (ciStartsWith original ("Chracters:".toList) ∨
           ciStartsWith original ("Characers:".toList) ∨
           ciStartsWith original ("characters:".toList)) then
    match original.findIdx? (· = ':') with
    | some ci => some ("Characters:".toList ++ original.drop (ci + 1))
    | none => none
  else
    let colonIdx := original.findIdx? (· = ':')
    let metaIdx := original.findIdx? (· = '{')
    let colonBeforeMeta : Bool :=
      match colonIdx, metaIdx with
      | some ci, some mi => decide (ci < mi)
      | some _, none => true
      | none, _ => false
    if colonBeforeMeta &&
       (match colonIdx with
        | some ci => match original.get? (ci + 1) with
                     | some c => decide (c ≠ ' ')
                     | none => false
        | none => false) &&
       decide (original.length + 1 < 1024) then
      match colonIdx with
      | some ci => some (original.take (ci + 1) ++ ' ' :: original.drop (ci + 1))
      | none => none
    else
      let metaNotAtEnd : Bool :=
        match metaIdx with
        | some mi =>
          let metaStr := original.drop mi
          match metaStr.findIdx? (· = '}') with
          | some wi => decide ((metaStr.drop (wi + 1)).dropWhile isspaceC ≠ [])
          | none => false
        | none => false
      if metaNotAtEnd then
        match metaIdx with
        | some mi =>
          let metaStr := original.drop mi
          match metaStr.findIdx? (· = '}') with
          | some wi =>
            let nameText := trimTok (original.take mi)
            let metadata := metaStr.take (wi + 1)
            let afterMeta := trimTok (metaStr.drop (wi + 1))
            some (nameText ++ ' ' :: afterMeta ++ ' ' :: metadata)
          | none => none
        | none => none
      else if decide (characters ≠ []) && colonBeforeMeta then
        match colonIdx with
        | some ci =>
          if ci < 256 then
            let name := trimTok (original.take ci)
            match find_similar_character name characters with
            | some correct => some (correct ++ original.drop ci)
            | none => none
          else none
        | none => none
      else none

/-! ## Claim-side predicates (modelled from the claims' words, for
counterexamples) and concrete input files -/

/-- A line that reaches the dialog-parsing stage of the classifier: not
empty, not a comment, not a `[Scene.N]`/`[Dialog.N]` header, not an exact
metadata keyword line. -/
def dialogCandidate (l : List Char) : Bool :=
  decide (l ≠ []) && decide (l.take 2 ≠ "//".toList) &&
  (scanHeaderNum ("[Scene.".toList) l).isNone &&
  (scanHeaderNum ("[Dialog.".toList) l).isNone &&
  decide (l.take 6 ≠ "Level:".toList) &&
  decide (l.take 9 ≠ "Location:".toList) &&
  decide (l.take 11 ≠ "Characters:".toList)

/-- Modelled from the claim's words (C5): index of the first colon that is
outside any `\x7b...\x7d` block. -/
def colonOutsideIdx (l : List Char) : Option Nat :=
  go l 0 false
where
  go : List Char → Nat → Bool → Option Nat
    | [], _, _ => none
    | c :: r, i, inB =>
      if c = '{' then go r (i + 1) true
      else if c = '}' then go r (i + 1) false
      else if c = ':' ∧ inB = false then some i
      else go r (i + 1) inB

/-- Modelled from the claim's words (C5): the line is a dialog candidate and
its first colon outside any brace block is immediately followed by a
character that is neither whitespace nor end-of-line. -/
def claimC5Ant (l : List Char) : Bool :=
  dialogCandidate l &&
  (match colonOutsideIdx l with
   | some i =>
     match l.get? (i + 1) with
     | some c => !isspaceC c
     | none => false
   | none => false)

/-- The minimal valid file of the spec (C1). -/
def minimalFile : List (List Char) :=
  ["[Scene.1]".toList, "Level: 1".toList, "Location: Forest".toList,
   "Characters: Alan, Beth".toList, "[Dialog.1]".toList,
   "Alan: Hello there! \x7bEmotion: happy\x7d".toList,
   "Beth: Hi Alan, nice to see you.".toList]

/-- File whose blank line 6 is followed by an error-kind line (C4). -/
def blankFile : List (List Char) :=
  ["[Scene.1]".toList, "Level: 1".toList, "Location: F".toList,
   "Characters: Alan".toList, "[Dialog.1]".toList, "".toList, "A:b".toList]

/-- File with a no-space-after-colon dialog line inside an open dialog
block (C5). -/
def nospaceFile : List (List Char) :=
  ["[Scene.1]".toList, "Level: 1".toList, "Location: F".toList,
   "Characters: Alan".toList, "[Dialog.1]".toList, "Alan:Hello".toList]

/-- Diagnostic-free file whose declared characters contain two similar
names (C8). -/
def cleanFixFile : List (List Char) :=
  ["[Scene.1]".toList, "Level: 1".toList, "Location: F".toList,
   "Characters: Alan, Aian".toList, "[Dialog.1]".toList, "Alan: Hi".toList]

/-- 252 unknown-syntax lines: 252 per-line diagnostics plus the 4 missing
end-of-file requirements make 256 diagnostics (C10). -/
def bigFile : List (List Char) := List.replicate 252 ("?".toList)

/-! ## Helper lemmas -/

/-- The C `error` counter always equals the number of reported diagnostics:
one step. -/
theorem processLine_count (st : CState) (n : Nat) (l : List Char)
    (next : Option (List Char)) (h : st.errorCount = st.diags.length) :
    (processLine st n l next).errorCount = (processLine st n l next).diags.length := by
  unfold processLine
  repeat' split <;> try simp [emit, h]

/-- The counter/diagnostic-list invariant over the whole loop. -/
theorem auxRun_count (ls : List (List Char)) : ∀ (st : CState) (n : Nat),
    st.errorCount = st.diags.length →
    (auxRun st n ls).errorCount = (auxRun st n ls).diags.length := by
  induction ls with
  | nil => intro st n h; simpa [auxRun] using h
  | cons l rest ih =>
    intro st n h
    simpa [auxRun] using ih _ _ (processLine_count st n l rest.head? h)

/-- The counter/diagnostic-list invariant through the final checks. -/
theorem finalChecks_count (st : CState) (n : Nat)
    (h : st.errorCount = st.diags.length) :
    (finalChecks st n).errorCount = (finalChecks st n).diags.length := by
  unfold finalChecks
  repeat' split <;> try simp [emit, h]

/-- `compile` reports as many diagnostics as it counts. -/
theorem compileSt_count (ls : List (List Char)) :
    (compileSt ls).errorCount = (compileSt ls).diags.length := by
  unfold compileSt
  exact finalChecks_count _ _ (auxRun_count ls initState 1 rfl)

/-- The final phase appends exactly the missing-requirement diagnostics. -/
theorem finalChecks_diags (st : CState) (n : Nat) :
    (finalChecks st n).diags = st.diags ++ missingList st n := by
  obtain ⟨sc, dl, ch, hs, hl, hloc, hcs, ds, ec⟩ := st
  cases hs <;> cases hl <;> cases hloc <;> cases hcs <;>
    simp [finalChecks, missingList, emit]

/-- One end-of-file diagnostic per missing requirement. -/
theorem missingList_length (st : CState) (n : Nat) :
    (missingList st n).length = missingCount st := by
  obtain ⟨sc, dl, ch, hs, hl, hloc, hcs, ds, ec⟩ := st
  cases hs <;> cases hl <;> cases hloc <;> cases hcs <;>
    simp [missingList, missingCount]

/-- Every end-of-file diagnostic is attributed to the final line number. -/
theorem missingList_line (st : CState) (n : Nat) :
    ∀ d ∈ missingList st n, d.line = n := by
  obtain ⟨sc, dl, ch, hs, hl, hloc, hcs, ds, ec⟩ := st
  cases hs <;> cases hl <;> cases hloc <;> cases hcs <;>
    simp [missingList]

/-! ## Claims -/

/-- Claim C1: compiling the minimal valid 7-line file yields success (zero
diagnostics, return value 0) and the 7 line events classify, in order, as
SceneHeader, Level, Location, Characters, DialogHeader, Dialog, Dialog. -/
theorem claim_C1_minimal_file :
    (compileSt minimalFile).diags = [] ∧ compileRet minimalFile = 0 ∧
    minimalFile.map (fun l => (parse_line l).type) =
      [.LINE_SCENE, .LINE_LEVEL, .LINE_LOCATION, .LINE_CHARACTERS,
       .LINE_DIALOG_HEADER, .LINE_DIALOG, .LINE_DIALOG] := by
  refine ⟨by decide, by decide, by decide⟩

/-- Claim C2: the classifier is a total function into the closed set of
line kinds: every input line receives exactly one of the 25 enumerated
kinds (it can never fail or throw; unparseable input lands on an
error kind or `LINE_UNKNOWN`, which are members of the same closed set). -/
theorem claim_C2_classifier_total (l : List Char) :
    (parse_line l).type ∈ allLineTypes := by
  cases h : (parse_line l).type <;> simp [allLineTypes]

/-- Claim C2 witness: the closed-set membership at a concrete line. -/
theorem claim_C2_witness : (parse_line ("?".toList)).type ∈ allLineTypes :=
  claim_C2_classifier_total _

/-- Claim C6: after the last line the validator emits one diagnostic per
missing requirement among hasScene/hasLevel/hasLocation/hasCharacters, each
attributed to the final line number; a file containing only `[Scene.1]`
yields exactly the three diagnostics Missing Level, Missing Location,
Missing Characters, each at line 1. -/
theorem claim_C6_final_requirements :
    (∀ (st : CState) (n : Nat),
      (finalChecks st n).diags = st.diags ++ missingList st n ∧
      (missingList st n).length = missingCount st ∧
      ∀ d ∈ missingList st n, d.line = n) ∧
    (compileSt ["[Scene.1]".toList]).diags =
      [⟨1, "Missing Level", "Add 'Level: N' after [Scene.X]", 0⟩,
       ⟨1, "Missing Location", "Add 'Location: name' after [Scene.X]", 0⟩,
       ⟨1, "Missing Characters", "Add 'Characters: Name1, Name2' after [Scene.X]", 0⟩] := by
  exact ⟨fun st n => ⟨finalChecks_diags st n, missingList_length st n,
    missingList_line st n⟩, by decide⟩

/-- Claim C9: a blank final line while a dialog block is open yields no
diagnostic: the blank-line rule looks ahead and fires only when a following
line exists. -/
theorem claim_C9_blank_final_line (st : CState) (n : Nat) (l : List Char)
    (_hd : st.dialog = true) (he : (parse_line l).type = .LINE_EMPTY) :
    auxRun st n [l] = st := by
  simp only [auxRun, List.head?]
  unfold processLine
  simp [he, blankLineBad]

/-- Claim C9 witness: the rule at a concrete in-dialog state and a concrete
blank last line. -/
theorem claim_C9_witness :
    auxRun ⟨1, true, [], true, true, true, true, [], 0⟩ 6 [[]] =
      ⟨1, true, [], true, true, true, true, [], 0⟩ :=
  claim_C9_blank_final_line _ 6 [] rfl rfl

/-- Claim C4 counterexample: `A:b` classifies to an error kind
(NoSpaceAfterColon), yet the blank line 6 of `blankFile`, inside an open
dialog block and followed by that error-kind line, still receives the
blank-line diagnostic — the claim exempts error-kind lookaheads, the code
does not. -/
theorem claim_C4_cex :
    (parse_line ("A:b".toList)).type = .LINE_ERROR_NO_SPACE_AFTER_COLON ∧
    (compileSt blankFile).diags =
      [⟨6, "Empty line inside dialog block",
        "Remove empty lines between dialog lines", 0⟩] := by
  exact ⟨by decide, by decide⟩

/-- Claim C4 (amended): an Empty event yields the blank-line diagnostic
exactly when the validator is in a dialog block and the next line exists and
classifies to neither DialogHeader nor Comment — error-kind lookaheads are
not exempt; outside a dialog block (or with no next line) an empty line
yields nothing. -/
theorem claim_C4_blank_line_rule (st : CState) (n : Nat) (l : List Char)
    (next : Option (List Char)) (he : (parse_line l).type = .LINE_EMPTY) :
    (processLine st n l next).diags =
      st.diags ++
        (if blankLineBad st next then
          [⟨n, "Empty line inside dialog block",
            "Remove empty lines between dialog lines", 0⟩]
         else []) := by
  unfold processLine
  dsimp only
  rw [he]
  dsimp only
  split <;> simp_all [emit]

/-- Claim C4 witness: the amended rule applied at a concrete in-dialog state
whose lookahead is the error-kind line `A:b`. -/
theorem claim_C4_witness :
    (processLine ⟨1, true, [], true, true, true, true, [], 0⟩ 6 []
        (some ("A:b".toList))).diags =
      [⟨6, "Empty line inside dialog block",
        "Remove empty lines between dialog lines", 0⟩] := by
  rw [claim_C4_blank_line_rule ⟨1, true, [], true, true, true, true, [], 0⟩ 6 []
    (some ("A:b".toList)) rfl]
  decide

set_option maxRecDepth 100000 in
/-- Claim C10: `compile` returns its diagnostic count narrowed to a byte:
the returned status always equals the count modulo 256, and the concrete
256-diagnostic input `bigFile` returns status 0, indistinguishable from a
diagnostic-free compile. -/
theorem claim_C10_char_narrowing :
    (∀ ls : List (List Char),
      compileRet ls = (compileSt ls).diags.length % 256) ∧
    compileRet bigFile = 0 ∧ (compileSt bigFile).diags.length = 256 := by
  refine ⟨fun ls => ?_, by decide, by decide⟩
  unfold compileRet
  rw [compileSt_count]

/-! ## C3: the typo-correction heuristic -/

/-- The token loop of the character matcher is first-match over the trimmed
token list under `fscAccept`. -/
theorem fscGo_eq (name : List Char) :
    ∀ ts, fscGo name ts = suggestUniform name (ts.map trimTok) := by
  intro ts
  induction ts with
  | nil => rfl
  | cons t ts ih =>
    simp only [fscGo, suggestUniform, List.map_cons]
    split <;> simp [ih]

/-- The flat-60% acceptance of `is_typo` coincides with the
length-dependent acceptance on candidates longer than 4 characters. -/
theorem is_typo_eq_fscAccept (w c : List Char) (h : ¬ c.length ≤ 4) :
    is_typo w c = fscAccept w c := by
  unfold is_typo fscAccept
  rw [if_neg h]

/-- Claim C3 counterexample: for input `ab` and the single candidate `a`,
the claim's rule accepts `a` (length difference 1, full positional match,
lowered threshold), but the code rejects it: the unsigned length filter
`len_in < len_exp - 2` wraps for candidates of length below 2. -/
theorem claim_C3_cex :
    find_similar_character ("ab".toList) ("a".toList) = none ∧
    suggestClaim ("ab".toList) [("a".toList)] = some ("a".toList) := by
  exact ⟨by decide, by decide⟩

/-- Claim C3 (amended): the heuristic rejects exact case-insensitive
matches and any candidate failing the size_t length filter (length
difference above 2, or candidate length below 2 via unsigned wrap), and
returns the first remaining candidate whose positional-match percentage
relative to the candidate's length exceeds 20 for candidates of length at
most 4 and 60 otherwise (`fscAccept`).  The character-name matcher
implements exactly this rule over the trimmed comma tokens, and the
header- and metadata-keyword checks implement the flat-60% variant, which
coincides with it on their candidate sets (every keyword is longer
than 4). -/
theorem claim_C3_heuristic_rule :
    (∀ name chars, find_similar_character name chars =
      suggestUniform name ((splitToks chars).map trimTok)) ∧
    (∀ w, find_similar_header w =
      suggestUniform w ["Scene".toList, "Dialog".toList]) ∧
    (∀ kw, keywordTypoCheck kw =
      suggestUniform kw ["Level".toList, "Location".toList, "Characters".toList]) := by
  refine ⟨fun name chars => fscGo_eq name _, fun w => ?_, fun kw => ?_⟩
  · simp only [find_similar_header, suggestUniform]
    rw [is_typo_eq_fscAccept w ("Scene".toList) (by decide),
        is_typo_eq_fscAccept w ("Dialog".toList) (by decide)]
  · simp only [keywordTypoCheck, suggestUniform]
    rw [is_typo_eq_fscAccept kw ("Level".toList) (by decide),
        is_typo_eq_fscAccept kw ("Location".toList) (by decide),
        is_typo_eq_fscAccept kw ("Characters".toList) (by decide)]

/-! ## C5: the no-space-after-colon rule -/

/-- Claim C5 counterexample: in `\x7ba\x7d B:c` the first colon outside any
brace block is immediately followed by the non-whitespace `c`, and the line
is a dialog candidate, yet the classifier returns Unknown, not
NoSpaceAfterColon: the code discards any colon after the first `\x7b`,
closed or not. -/
theorem claim_C5_cex :
    claimC5Ant ("\x7ba\x7d B:c".toList) = true ∧
    (parse_line ("\x7ba\x7d B:c".toList)).type = .LINE_UNKNOWN ∧
    (LineType.LINE_UNKNOWN ≠ .LINE_ERROR_NO_SPACE_AFTER_COLON) := by
  exact ⟨by decide, by decide, by decide⟩

/-- Claim C5 (amended): for every dialog-candidate line whose first colon
precedes any `\x7b` and is immediately followed by a character that is
neither whitespace nor end-of-line, the classifier returns
NoSpaceAfterColon; and `Alan:Hello` inside an open dialog block yields, in
the compiler.c revision of compile, a NoSpaceAfterColon diagnostic whose
caret column equals the colon's position + 1. -/
theorem claim_C5_no_space_after_colon :
    (∀ (l : List Char) (ci : Nat) (c : Char),
      dialogCandidate l = true →
      effColon l = some ci →
      l.get? (ci + 1) = some c →
      isspaceC c = false →
      (parse_line l).type = .LINE_ERROR_NO_SPACE_AFTER_COLON) ∧
    (compileV2 nospaceFile).diags =
      [⟨6, "Missing space after colon",
        "Format: Name: Text (space required after ':')", 5⟩] := by
  refine ⟨fun l ci c hdc hcol hget hsp => ?_, by decide⟩
  simp only [dialogCandidate, Bool.and_eq_true, decide_eq_true_eq,
    Option.isNone_iff_eq_none] at hdc
  obtain ⟨⟨⟨⟨⟨⟨h1, h2⟩, h3⟩, h4⟩, h5⟩, h6⟩, h7⟩ := hdc
  have hc : ¬ (c = ' ') := by
    intro e; subst e; simp [isspaceC] at hsp
  unfold parse_line
  simp only [if_neg h1, if_neg h2, h3, h4, if_neg h5, if_neg h6, if_neg h7, hcol]
  unfold parseDialogLine
  simp only [hget]
  rw [if_pos hc]

/-- Claim C5 witness: the amended rule at the concrete line `Alan:Hello`
(colon at index 4, followed by `H`). -/
theorem claim_C5_witness :
    (parse_line ("Alan:Hello".toList)).type = .LINE_ERROR_NO_SPACE_AFTER_COLON :=
  claim_C5_no_space_after_colon.1 ("Alan:Hello".toList) 4 'H'
    (by decide) (by decide) (by decide) (by decide)

/-! ## C7: no leading-space rule in the classifier -/

theorem headerTypeOf_ne_leading (c : List Char) :
    headerTypeOf c ≠ .LINE_ERROR_LEADING_SPACE := by
  unfold headerTypeOf; split <;> simp

theorem kwTypeOf_ne_leading (c : List Char) :
    kwTypeOf c ≠ .LINE_ERROR_LEADING_SPACE := by
  unfold kwTypeOf; repeat' split <;> simp

theorem dialogTailAfter_ne_leading (l : List Char) (ci : Nat) :
    (dialogTailAfter l ci).type ≠ .LINE_ERROR_LEADING_SPACE := by
  unfold dialogTailAfter
  dsimp only
  repeat' split <;> try simp

theorem parseDialogLine_ne_leading (l : List Char) (ci : Nat) :
    (parseDialogLine l ci).type ≠ .LINE_ERROR_LEADING_SPACE := by
  unfold parseDialogLine
  repeat' split <;> simp [dialogTailAfter_ne_leading]

/-- Claim C7 counterexample: ` Alan: Hello` begins with whitespace and
contains a colon, yet the classifier returns an ordinary Dialog event (with
the name trimmed), not a LeadingSpace error. -/
theorem claim_C7_cex :
    (" Alan: Hello".toList.head? = some ' ') ∧ isspaceC ' ' = true ∧
    (" Alan: Hello".toList.contains ':' = true) ∧
    (parse_line (" Alan: Hello".toList)).type = .LINE_DIALOG ∧
    (LineType.LINE_DIALOG ≠ .LINE_ERROR_LEADING_SPACE) := by
  exact ⟨by decide, by decide, by decide, by decide, by decide⟩

/-- Claim C7 (amended): the classifier applies no leading-whitespace rule
at all — `parse_line` never returns the LeadingSpace error kind for any
input (the validator's LeadingSpace case is dead code); a colon-bearing
line with leading whitespace is classified by the ordinary dialog rules,
e.g. ` Alan: Hello` becomes a Dialog event with name `Alan`. -/
theorem claim_C7_no_leading_space_rule :
    (∀ l : List Char, (parse_line l).type ≠ .LINE_ERROR_LEADING_SPACE) ∧
    (parse_line (" Alan: Hello".toList)).type = .LINE_DIALOG ∧
    (parse_line (" Alan: Hello".toList)).name = "Alan".toList := by
  refine ⟨fun l => ?_, by decide, by decide⟩
  unfold parse_line
  dsimp only
  repeat' split <;>
    try simp [parseDialogLine_ne_leading, headerTypeOf_ne_leading, kwTypeOf_ne_leading]

/-! ## C8: auto-fix on a diagnostic-free file -/

/-- Claim C8 (code bug): `cleanFixFile` compiles with zero diagnostics, yet
`fix_line` rewrites its dialog line `Alan: Hi` to `Aian: Hi` (the declared
name `Alan` approximately matches the other declared name `Aian`), so the
auto-fix pass changes a line of a clean file, contradicting the intended
idempotence. -/
theorem claim_C8_autofix_changes_clean_file :
    (compileSt cleanFixFile).diags = [] ∧
    (compileSt cleanFixFile).errorCount = 0 ∧
    fix_line ("Alan: Hi".toList) (" Alan, Aian".toList) =
      some ("Aian: Hi".toList) := by
  exact ⟨by decide, by decide, by decide⟩

end DialScript
